import Mathlib

set_option maxRecDepth 100000

/-!
Verification of the feedback-cache core of the `companion-module-newblue-captivate`
module (`src/captivate.js`), a bridge between the Companion console and the
Captivate titling engine.

The JavaScript is shallowly embedded:
* JS objects that act as string-keyed records are association lists
  `List (String × α)`; `objGet`/`objSet`/`objDelete` model property read,
  write and `delete`.
* JSON primitive values are the inductive `JVal` (strings, integers,
  booleans, `undefined`); feedback states are `JState := List (String × JVal)`.
* `crypto.createHash('md5')` is a full MD5 implementation over byte lists
  (strings are taken as ASCII, which all keys and option serializations are).
* Remote RPC calls and timers are oracles/flags threaded through an
  environment `Env` and an instance state `FbState`; asynchronous but
  effectively synchronous continuations are sequentialized.
-/

namespace Captivate

/-- A primitive JSON/JS value as found in option records and feedback states. -/
inductive JVal where
  | jstr (s : String)
  | jnum (n : Int)
  | jbool (b : Bool)
  | jundef
deriving DecidableEq, Repr

open JVal

/-- A feedback state object: mapping from field name to primitive value. -/
abbrev JState := List (String × JVal)

/-- Property read on a JS object (association list, first binding wins). -/
def objGet {α : Type} (o : List (String × α)) (k : String) : Option α :=
  match o with
  | [] => none
  | (k', v) :: rest => if k' = k then some v else objGet rest k

/-- Property write on a JS object: overwrites an existing binding in place,
otherwise appends the new binding. -/
def objSet {α : Type} (o : List (String × α)) (k : String) (v : α) :
    List (String × α) :=
  match o with
  | [] => [(k, v)]
  | (k', v') :: rest =>
      if k' = k then (k', v) :: rest else (k', v') :: objSet rest k v

/-- The JS `delete obj[k]` operation. -/
def objDelete {α : Type} (o : List (String × α)) (k : String) :
    List (String × α) :=
  match o with
  | [] => []
  | (k', v) :: rest =>
      if k' = k then objDelete rest k else (k', v) :: objDelete rest k

/-- `obj.hasOwnProperty(k)`. -/
def hasProp {α : Type} (o : List (String × α)) (k : String) : Bool :=
  (objGet o k).isSome

/-- JS truthiness of a primitive value. -/
def jTruthy : JVal → Bool
  | jstr s => s ≠ ""
  | jnum n => n ≠ 0
  | jbool b => b
  | jundef => false

/-- JS truthiness of a property read (`undefined` when absent is falsy). -/
def jTruthyOpt : Option JVal → Bool
  | some v => jTruthy v
  | none => false

/-- JS string coercion used when a primitive indexes an object. -/
def jToKeyString : JVal → String
  | jstr s => s
  | jnum n => toString n
  | jbool b => cond b "true" "false"
  | jundef => "undefined"

/-! ## MD5 (the fingerprint used by `makeCacheKeyUsingOptions`)

Arithmetic is on `Nat` reduced modulo `2^32` at every step. -/

/-- Truncate to a 32-bit word. -/
def w32 (n : Nat) : Nat := n % 4294967296

/-- 32-bit modular addition. -/
def wadd (a b : Nat) : Nat := (a + b) % 4294967296

/-- 32-bit bitwise complement (argument below `2^32`). -/
def wnot (a : Nat) : Nat := 4294967295 ^^^ a

/-- Rotate a 32-bit word left by `n` places. -/
def rotl (x n : Nat) : Nat := ((x <<< n) % 4294967296) ||| (x >>> (32 - n))

/-- The 64 MD5 additive constants `⌊|sin (i+1)| · 2^32⌋`. -/
def md5K : List Nat :=
  [3614090360, 3905402710, 606105819, 3250441966, 4118548399, 1200080426,
   2821735955, 4249261313, 1770035416, 2336552879, 4294925233, 2304563134,
   1804603682, 4254626195, 2792965006, 1236535329, 4129170786, 3225465664,
   643717713, 3921069994, 3593408605, 38016083, 3634488961, 3889429448,
   568446438, 3275163606, 4107603335, 1163531501, 2850285829, 4243563512,
   1735328473, 2368359562, 4294588738, 2272392833, 1839030562, 4259657740,
   2763975236, 1272893353, 4139469664, 3200236656, 681279174, 3936430074,
   3572445317, 76029189, 3654602809, 3873151461, 530742520, 3299628645,
   4096336452, 1126891415, 2878612391, 4237533241, 1700485571, 2399980690,
   4293915773, 2240044497, 1873313359, 4264355552, 2734768916, 1309151649,
   4149444226, 3174756917, 718787259, 3951481745]

/-- The per-round left-rotation amounts. -/
def md5S : List Nat :=
  [7, 12, 17, 22, 7, 12, 17, 22, 7, 12, 17, 22, 7, 12, 17, 22,
   5, 9, 14, 20, 5, 9, 14, 20, 5, 9, 14, 20, 5, 9, 14, 20,
   4, 11, 16, 23, 4, 11, 16, 23, 4, 11, 16, 23, 4, 11, 16, 23,
   6, 10, 15, 21, 6, 10, 15, 21, 6, 10, 15, 21, 6, 10, 15, 21]

/-- One MD5 round: given the round index `i`, the 16 message words `m` and
the running state, produce the next state. -/
def md5Round (m : List Nat) (st : Nat × Nat × Nat × Nat) (i : Nat) :
    Nat × Nat × Nat × Nat :=
  let (a, b, c, d) := st
  let (f, g) :=
    if i < 16 then ((b &&& c) ||| (wnot b &&& d), i)
    else if i < 32 then ((d &&& b) ||| (wnot d &&& c), (5 * i + 1) % 16)
    else if i < 48 then (b ^^^ c ^^^ d, (3 * i + 5) % 16)
    else (c ^^^ (b ||| wnot d), (7 * i) % 16)
  let mg := (m.getD g 0)
  let ki := (md5K.getD i 0)
  let si := (md5S.getD i 0)
  let bNew := wadd b (rotl (wadd (wadd a f) (wadd ki mg)) si)
  (d, bNew, b, c)

/-- Decode a 64-byte chunk into 16 little-endian 32-bit words. -/
def md5Words (chunk : List Nat) : List Nat :=
  (List.range 16).map fun j =>
    chunk.getD (4 * j) 0 + (chunk.getD (4 * j + 1) 0) <<< 8 +
      (chunk.getD (4 * j + 2) 0) <<< 16 + (chunk.getD (4 * j + 3) 0) <<< 24

/-- Process one 512-bit chunk, updating the four-word digest state. -/
def md5Chunk (st : Nat × Nat × Nat × Nat) (chunk : List Nat) :
    Nat × Nat × Nat × Nat :=
  let m := md5Words chunk
  let (a0, b0, c0, d0) := st
  let (a, b, c, d) := (List.range 64).foldl (md5Round m) (a0, b0, c0, d0)
  (wadd a0 a, wadd b0 b, wadd c0 c, wadd d0 d)

/-- MD5 padding: a `0x80` byte, zeros to 56 mod 64, then the bit length as a
little-endian 64-bit integer. -/
def md5Pad (msg : List Nat) : List Nat :=
  let len := msg.length
  let padLen := (55 + 64 - len % 64) % 64 + 1
  let bitLen := (8 * len) % 18446744073709551616
  msg ++ (128 :: List.replicate (padLen - 1) 0) ++
    (List.range 8).map (fun j => (bitLen >>> (8 * j)) % 256)

/-- Split into 64-byte chunks (fuel-based so the kernel can evaluate it). -/
def chunk64Go : Nat → List Nat → List (List Nat)
  | 0, _ => []
  | _, [] => []
  | fuel + 1, l => l.take 64 :: chunk64Go fuel (l.drop 64)

/-- Split a byte list into 64-byte chunks. -/
def chunk64 (l : List Nat) : List (List Nat) := chunk64Go (l.length + 1) l

/-- Hex rendering of one byte, low nibble last, lowercase. -/
def byteHex (b : Nat) : String :=
  let digit := fun (n : Nat) =>
    if n < 10 then Char.ofNat (48 + n) else Char.ofNat (87 + n)
  String.mk [digit (b / 16), digit (b % 16)]

/-- Hex rendering of a 32-bit word as four little-endian bytes. -/
def wordHexLE (w : Nat) : String :=
  byteHex (w % 256) ++ byteHex ((w >>> 8) % 256) ++
    byteHex ((w >>> 16) % 256) ++ byteHex ((w >>> 24) % 256)

/-- MD5 digest of a byte list, as the usual 32-character lowercase hex string. -/
def md5HexBytes (msg : List Nat) : String :=
  let st0 := (1732584193, 4023233417, 2562383102, 271733878)
  let (a, b, c, d) := (chunk64 (md5Pad msg)).foldl md5Chunk st0
  wordHexLE a ++ wordHexLE b ++ wordHexLE c ++ wordHexLE d

/-- Bytes of a string (ASCII; every string fingerprinted by the module is). -/
def strBytes (s : String) : List Nat := s.data.map Char.toNat

/-- MD5 digest of a string. -/
def md5Hex (s : String) : String := md5HexBytes (strBytes s)

/-! ## `JSON.stringify` on option records

`JSON.stringify` serializes an object's own properties in insertion order,
omitting `undefined`-valued ones.  Strings needing escapes do not occur in
option records, so escaping is not modelled. -/

/-- Serialization of one primitive value; `none` for `undefined` (omitted). -/
def jsonStringifyVal : JVal → Option String
  | jstr s => some ("\"" ++ s ++ "\"")
  | jnum n => some (toString n)
  | jbool b => some (cond b "true" "false")
  | jundef => none

/-- Serialization of an object, fields in insertion order. -/
def jsonStringifyObj (o : JState) : String :=
  let fields := o.filterMap fun kv =>
    (jsonStringifyVal kv.2).map fun v => "\"" ++ kv.1 ++ "\":" ++ v
  "\x7b" ++ String.intercalate "," fields ++ "\x7d"

/-- Embedding of `makeCacheKeyUsingOptions` (src/captivate.js:62–78).
When the options record has at least one key, the key is suffixed with
`+` and the MD5 fingerprint of `JSON.stringify` of a shallow copy of the
record (the copy preserves key insertion order, so the serialization is
order-dependent). -/
def makeCacheKeyUsingOptions (key : String) (options : JState) : String :=
  if options.length ≠ 0 then
    key ++ "+" ++ md5Hex (jsonStringifyObj options)
  else key

/-! ## Feedback cache primitives (src/captivate.js:677–717) -/

/-- Embedding of `cacheStore` (src/captivate.js:693–697) as a function of the
`localFeedbackCache` object. -/
def cacheStore (cache : List (String × JState)) (actorId feedbackId : String)
    (options state : JState) : List (String × JState) :=
  let afid := actorId ++ "~" ++ feedbackId
  objSet cache (makeCacheKeyUsingOptions afid options) state

/-- Embedding of `cacheGet` (src/captivate.js:699–703). -/
def cacheGet (cache : List (String × JState)) (actorId feedbackId : String)
    (options : JState) : Option JState :=
  let afid := actorId ++ "~" ++ feedbackId
  objGet cache (makeCacheKeyUsingOptions afid options)

/-- JS `key.startsWith(p)`, over the character sequences. -/
def strStartsWith (s p : String) : Bool :=
  p.data.isPrefixOf s.data

/-- Embedding of `cacheRemoveKeysWithPrefix` (src/captivate.js:677–681):
`delete` every entry whose key starts with the given string. -/
def cacheRemoveKeysWithPrefix (cache : List (String × JState)) (p : String) :
    List (String × JState) :=
  match cache with
  | [] => []
  | (k, v) :: rest =>
      if strStartsWith k p then cacheRemoveKeysWithPrefix rest p
      else (k, v) :: cacheRemoveKeysWithPrefix rest p

/-- Split a character list at every occurrence of a separator character. -/
def splitCharAux (sep : Char) : List Char → List Char → List (List Char)
  | [], acc => [acc.reverse]
  | c :: rest, acc =>
      if c = sep then acc.reverse :: splitCharAux sep rest []
      else splitCharAux sep rest (c :: acc)

/-- JS `s.split(sep)` for a one-character separator. -/
def splitChar (s : String) (sep : Char) : List String :=
  (splitCharAux sep s.data []).map String.mk

/-- JS `id.split('~', 2)` destructured as `[actorId, feedbackId]`:
the remainder after the second segment is dropped, and the second component
is `undefined` when there is no `~`. -/
def splitAF (id : String) : String × Option String :=
  match splitChar id '~' with
  | [] => ("", none)
  | [a] => (a, none)
  | a :: b :: _ => (a, some b)

/-- Embedding of `cacheGetFromFullId` (src/captivate.js:688–691).
`[aid, fid].join('~')` renders an `undefined` `fid` as the empty string. -/
def cacheGetFromFullId (cache : List (String × JState))
    (actorFeedbackId : String) (options : JState) : Option JState :=
  let (aid, fid) := splitAF actorFeedbackId
  cacheGet cache aid (fid.getD "") options

/-- Whether `pat` occurs as a contiguous subsequence of `l`. -/
def listHasSub (pat : List Char) : List Char → Bool
  | [] => pat.isEmpty
  | c :: rest => pat.isPrefixOf (c :: rest) || listHasSub pat rest

/-- `feedbackId.match(/\.feedback\./)` is non-null: the id contains the
substring `.feedback.`. -/
def isFeedbackId (fid : String) : Bool :=
  listHasSub ".feedback.".data fid.data

/-! ## The environment: remote capabilities consumed by the resolver and the
rebuild loop.  RPC replies are oracles: `none` models a failure (transport
error or `JSON.parse` throw). -/

/-- External capabilities of one resolution pass. -/
structure Env where
  /-- Reply of `getValueForKey("newblue.automation.layerstate")`:
  layer key → play-state record. -/
  playStates : List (String × JState)
  /-- `this.images`: image name → base64 png data. -/
  images : List (String × String)
  /-- `this.layerImageData`: an instance field that is never assigned
  anywhere in the source, hence always `undefined` (`none`) in the real
  program; kept as a field so the fallback branch can be stated. -/
  layerImageData : Option String
  /-- The Jimp decode/resize/composite/encode pipeline on (base, overlay)
  base64 data: `some` is the composited base64 result, `none` models a
  decode failure, in which case the state passes through unchanged. -/
  composite : String → String → Option String
  /-- `_cmp_v1_queryFeedbackState` followed by `JSON.parse`: `none` models
  an RPC failure or a parse throw ("Bogus response"). -/
  rpcFeedbackState : String → String → JState → Option JState

/-- `playStates[queryKey]` followed by the defaulting in the source:
if the record is `undefined` or lacks a `playState` property it is replaced
by `{playState: "unknown"}`. -/
def lookupPlayRec (playStates : List (String × JState)) (queryKey : JVal) :
    JState :=
  match objGet playStates (jToKeyString queryKey) with
  | some r => if hasProp r "playState" then r else [("playState", jstr "unknown")]
  | none => [("playState", jstr "unknown")]

/-! ## Feedback state resolver (src/captivate.js:483–612) -/

/-- Embedding of `_handleFeedbackOverlayPlayStates` (src/captivate.js:483–541).
Note the `png_running` branch reproduces the source's self-assignment
`state.png_running = state.png_running` verbatim: unlike the `png_paused`
branch (which sets `state.png`), the running variant is never copied into
`png` before being deleted. -/
def handleFeedbackOverlayPlayStates (env : Env) (state : JState) : JState :=
  let state :=
    match objGet state "overlayQueryKey" with
    | none => state
    | some qk =>
      let s := lookupPlayRec env.playStates qk
      let ps := objGet s "playState"
      let state :=
        if hasProp state "overlayImageName_running" then
          let state :=
            if ps = some (jstr "running") then
              objSet state "overlayImageName"
                ((objGet state "overlayImageName_running").getD jundef)
            else state
          objDelete state "overlayImageName_running"
        else state
      let state :=
        if hasProp state "overlayImageName_paused" then
          let state :=
            if ps = some (jstr "paused") then
              objSet state "overlayImageName"
                ((objGet state "overlayImageName_paused").getD jundef)
            else state
          objDelete state "overlayImageName_paused"
        else state
      objDelete state "overlayQueryKey"
  match objGet state "pngQueryKey" with
  | none => state
  | some qk =>
    let s := lookupPlayRec env.playStates qk
    let ps := objGet s "playState"
    let state :=
      if hasProp state "png_running" then
        let state :=
          if ps = some (jstr "running") then
            objSet state "png_running"
              ((objGet state "png_running").getD jundef)
          else state
        objDelete state "png_running"
      else state
    let state :=
      if hasProp state "png_paused" then
        let state :=
          if ps = some (jstr "paused") then
            objSet state "png" ((objGet state "png_paused").getD jundef)
          else state
        objDelete state "png_paused"
      else state
    objDelete state "pngQueryKey"

/-- Embedding of `_handleFeedbackOverlayImage` (src/captivate.js:543–601).
The encode-error rejection inside `getBuffer` (which would abort the whole
query) is not modelled; decode failures at either `Jimp.read` resolve with
the state unchanged, which `Env.composite = none` captures. -/
def handleFeedbackOverlayImage (env : Env) (state : JState) : JState :=
  if hasProp state "overlayImageName" then
    let layerImageData :=
      match objGet state "overlayImageName" with
      | some v => objGet env.images (jToKeyString v)
      | none => none
    let state := objDelete state "overlayImageName"
    match layerImageData with
    | none => state
    | some overlayData =>
      match objGet state "png64" with
      | some basePng =>
        match env.composite (jToKeyString basePng) overlayData with
        | some composited => objSet state "png64" (jstr composited)
        | none => state
      | none =>
        objSet state "png64"
          (match env.layerImageData with
           | some s => jstr s
           | none => jundef)
  else if hasProp state "imageName" then
    let imageData :=
      match objGet state "imageName" with
      | some v => objGet env.images (jToKeyString v)
      | none => none
    let state :=
      objSet state "png64"
        (match imageData with
         | some s => jstr s
         | none => jundef)
    objDelete state "imageName"
  else state

/-- Embedding of `_handleFeedbackState` (src/captivate.js:603–612); note both
guards test JS truthiness of the fields, not property presence. -/
def handleFeedbackState (env : Env) (state : JState) : JState :=
  let state :=
    if jTruthyOpt (objGet state "overlayQueryKey") ||
        jTruthyOpt (objGet state "pngQueryKey") then
      handleFeedbackOverlayPlayStates env state
    else state
  if jTruthyOpt (objGet state "overlayImageName") ||
      jTruthyOpt (objGet state "imageName") then
    handleFeedbackOverlayImage env state
  else state

/-- Embedding of `_queryFeedbackState`/`queryFeedbackDetails`
(src/captivate.js:627–657): RPC and parse, then the resolver; all failures
collapse to `none`. -/
def queryFeedbackDetails (env : Env) (actorId feedbackId : String)
    (options : JState) : Option JState :=
  (env.rpcFeedbackState actorId feedbackId options).map (handleFeedbackState env)

/-! ## Instance state: miss worklist, staleness marks, rebuild loop
(src/captivate.js:693–839).

Two ghost fields record the observable actions the claims mention:
`storeLog` logs every `cacheStore` invocation (key and stored state) and
`missPushLog` logs every `cacheMisses.push`.  They are write-only
instrumentation and never feed back into behaviour. -/

/-- One entry of the `cacheMisses` worklist: `{id, options}`. -/
structure Miss where
  id : String
  options : JState
deriving DecidableEq, Repr

/-- The slice of `CaptivateInstance` state the feedback cache machinery
reads and writes. -/
structure FbState where
  /-- `this.localFeedbackCache`. -/
  localFeedbackCache : List (String × JState)
  /-- `this.pendingFeedbackChanges`: key → `"stale"`. -/
  pendingFeedbackChanges : List (String × String)
  /-- `this.cacheMisses` (pushed at the end, popped from the end). -/
  cacheMisses : List Miss
  /-- Whether `this.cacheBuilder` holds a live timer. -/
  cacheBuilderArmed : Bool
  /-- Ghost: number of `this.checkFeedbacks()` requests issued. -/
  checkFeedbacksCount : Nat
  /-- Ghost: every `cacheStore` invocation, in order. -/
  storeLog : List (String × JState)
  /-- Ghost: every `cacheMisses.push`, in order. -/
  missPushLog : List Miss
deriving DecidableEq, Repr

/-- The instance-level `cacheStore` (src/captivate.js:693–697), logged. -/
def FbState.store (s : FbState) (actorId feedbackId : String)
    (options state : JState) : FbState :=
  let key := makeCacheKeyUsingOptions (actorId ++ "~" ++ feedbackId) options
  { s with
    localFeedbackCache := objSet s.localFeedbackCache key state
    storeLog := s.storeLog ++ [(key, state)] }

/-- `this.cacheMisses.push(m)`, logged. -/
def FbState.pushMiss (s : FbState) (m : Miss) : FbState :=
  { s with
    cacheMisses := s.cacheMisses ++ [m]
    missPushLog := s.missPushLog ++ [m] }

/-- Embedding of `stopCacheChecker` (src/captivate.js:821–827). -/
def stopCacheChecker (s : FbState) : FbState :=
  { s with cacheBuilderArmed := false }

/-- Whether a popped miss id passes the guard
`actorId && feedbackId && feedbackId.match(/\.feedback\./)`
(src/captivate.js:741), JS string truthiness being non-emptiness. -/
def validMissId (id : String) : Bool :=
  match splitAF id with
  | (aid, some fid) => aid ≠ "" && fid ≠ "" && isFeedbackId fid
  | (_, none) => false

/-- One iteration of the `while` loop of `rebuildFeedbackCache`
(src/captivate.js:728–757) for the popped miss `m`.  The staleness mark is
deleted unconditionally first; the guarded branch then issues the query and,
on success, stores the resolved reply — a per-miss failure is swallowed
(the `.catch` resolves).  (The source line `if (!miss.id === undefined)
continue;` compares a boolean against `undefined` and can never fire; it is
dead code and not modelled.) -/
def processOneMiss (env : Env) (m : Miss) (s : FbState) : FbState :=
  let s1 :=
    { s with pendingFeedbackChanges := objDelete s.pendingFeedbackChanges m.id }
  if validMissId m.id then
    match queryFeedbackDetails env (splitAF m.id).1 ((splitAF m.id).2.getD "")
        m.options with
    | some reply =>
        s1.store (splitAF m.id).1 ((splitAF m.id).2.getD "") m.options reply
    | none => s1
  else s1

/-- The whole drain of the worklist, sequentialized: the misses arrive in pop
order (worklist reversed).  The returned number counts the promises created
(one per miss passing the feedback-id guard). -/
def processMisses (env : Env) : List Miss → FbState → FbState × Nat
  | [], s => (s, 0)
  | m :: rest, s =>
    let pr := processMisses env rest (processOneMiss env m s)
    (pr.1, pr.2 + if validMissId m.id then 1 else 0)

/-- Embedding of `rebuildFeedbackCache` (src/captivate.js:723–765): stop the
checker timer, drain the worklist by popping, then — only if at least one
promise was created — request one `checkFeedbacks()` after all settle. -/
def rebuildFeedbackCache (env : Env) (s : FbState) : FbState :=
  let s1 := stopCacheChecker s
  let misses := s1.cacheMisses.reverse
  let s2 := { s1 with cacheMisses := [] }
  let pr := processMisses env misses s2
  if pr.2 > 0 then
    { pr.1 with checkFeedbacksCount := pr.1.checkFeedbacksCount + 1 }
  else pr.1

/-- Embedding of `startCacheChecker` (src/captivate.js:829–839): always stop
first; when misses are pending, rebuild immediately and re-arm the 500 ms
timer. -/
def startCacheChecker (env : Env) (s : FbState) : FbState :=
  let s := stopCacheChecker s
  if s.cacheMisses.length > 0 then
    let s := rebuildFeedbackCache env s
    { s with cacheBuilderArmed := true }
  else s

/-- The argument of `handleFeedback`: a Companion feedback event. -/
structure FbEvent where
  feedbackId : String
  options : JState
  type : String

/-- The JS value returned from `handleFeedback`: a boolean coercion for
`type == 'boolean'`, otherwise the (possibly `undefined`) state object. -/
inductive JsRet where
  | bval (b : Bool)
  | sval (s : Option JState)
deriving DecidableEq, Repr

/-- JS truthiness of an `Option String` property (used for the
`pendingFeedbackChanges[k]` guard, whose values are the string `"stale"`). -/
def strTruthyOpt : Option String → Bool
  | some v => v ≠ ""
  | none => false

/-- Embedding of `handleFeedback` (src/captivate.js:774–819).  The call is
`async` but contains no `await`, so the whole body — including the
`startCacheChecker` call and the rebuild it triggers — runs synchronously.
(The local `cacheKey` of line 781 is computed but never used.) -/
def handleFeedback (env : Env) (event : FbEvent) (s : FbState) :
    JsRet × FbState :=
  let result0 := cacheGetFromFullId s.localFeedbackCache event.feedbackId
    event.options
  let result : Option JState :=
    match result0 with
    | some r =>
      some
        (if hasProp r "imageName" then
          let processed := objDelete r "imageName"
          match (match objGet r "imageName" with
                 | some v => objGet env.images (jToKeyString v)
                 | none => none) with
          | some imageData => objSet processed "png64" (jstr imageData)
          | none => processed
        else r)
    | none => none
  let s1 : FbState :=
    match result0 with
    | some _ =>
      if strTruthyOpt (objGet s.pendingFeedbackChanges event.feedbackId) then
        s.pushMiss ⟨event.feedbackId, event.options⟩
      else s
    | none => s.pushMiss ⟨event.feedbackId, event.options⟩
  let s2 := startCacheChecker env s1
  let ret :=
    if event.type = "boolean" then
      JsRet.bval (jTruthyOpt (result.bind fun st => objGet st "value"))
    else JsRet.sval result
  (ret, s2)

/-! ## Connection lifecycle (src/captivate.js:205–273)

Only the socket handlers' effect on the instance is modelled: the
`connectionWatchdog` field is `some 5000` exactly when the repeating
5-second `setInterval` that re-invokes `initQWebChannel` (the connect
routine) is armed. -/

/-- The slice of instance/config state the socket handlers touch. -/
structure ConnState where
  /-- `this.connectionWatchdog`: `some n` when a repeating timer of period
  `n` ms re-attempting the connection is armed. -/
  connectionWatchdog : Option Nat
  /-- The last `updateStatus` report. -/
  status : String
  /-- `this.config.needsNewConfig`. -/
  needsNewConfig : Bool
  /-- `this.config.host`. -/
  host : String
  /-- `this.config.port` (a string once cleared by the error handler). -/
  port : String
deriving DecidableEq, Repr

/-- The three transport events whose handlers are registered in
`initQWebChannel`. -/
inductive SocketEvent where
  | onOpen
  | onError
  | onClose
deriving DecidableEq, Repr

/-- Embedding of the socket `open` (src/captivate.js:205–212), `error`
(250–257) and `close` (259–271) handlers.  `open` disarms the watchdog;
`error` reports `BadConfig` and clears the configuration but arms nothing;
`close` reports `Disconnected` and arms the 5-second reconnection interval
when none is armed. -/
def socketStep : SocketEvent → ConnState → ConnState
  | .onOpen, s => { s with connectionWatchdog := none }
  | .onError, s =>
    { s with
      status := "BadConfig"
      needsNewConfig := true
      port := ""
      host := "" }
  | .onClose, s =>
    let s := { s with status := "Disconnected" }
    if s.connectionWatchdog = none then
      { s with connectionWatchdog := some 5000 }
    else s

/-! ## Shared concrete instances used by witnesses and counterexamples -/

/-- An environment with empty capability tables and always-failing RPC. -/
def envNull : Env where
  playStates := []
  images := []
  layerImageData := none
  composite := fun _ _ => none
  rpcFeedbackState := fun _ _ _ => none

/-- A fresh instance state: everything empty, as after the constructor. -/
def fbState0 : FbState where
  localFeedbackCache := []
  pendingFeedbackChanges := []
  cacheMisses := []
  cacheBuilderArmed := false
  checkFeedbacksCount := 0
  storeLog := []
  missPushLog := []

/-- Environment for the `pngQueryKey` scenario: the play-state lookup reports
layer `L1` as running. -/
def envC3 : Env where
  playStates := [("L1", [("playState", jstr "running")])]
  images := []
  layerImageData := none
  composite := fun _ _ => none
  rpcFeedbackState := fun _ _ _ => none

/-- A state with one stale mark and one pending miss for the same key. -/
def s2c : FbState :=
  { fbState0 with
    pendingFeedbackChanges := [("A~x.feedback.y", "stale")]
    cacheMisses := [⟨"A~x.feedback.y", []⟩] }

/-- An environment whose feedback-state RPC succeeds for actor `A` and fails
for every other actor. -/
def envC4 : Env where
  playStates := []
  images := []
  layerImageData := none
  composite := fun _ _ => none
  rpcFeedbackState := fun aid _ _ =>
    if aid = "A" then some [("value", jbool true)] else none

/-- A worklist with one queued miss whose refill will fail (actor `B`) and
one whose refill will succeed (actor `A`). -/
def s4 : FbState :=
  { fbState0 with
    cacheMisses := [⟨"B~x.feedback.y", []⟩, ⟨"A~x.feedback.y", []⟩] }

/-- A state holding a cached entry for `A~x.feedback.y` that is marked
stale. -/
def s10 : FbState :=
  { fbState0 with
    localFeedbackCache := [("A~x.feedback.y", [("value", jbool true)])]
    pendingFeedbackChanges := [("A~x.feedback.y", "stale")] }

/-- Sanity check of the MD5 embedding against the RFC 1321 test vector. -/
theorem md5Hex_empty : md5Hex "" = "d41d8cd98f00b204e9800998ecf8427e" := by
  decide

/-- Sanity check of the MD5 embedding against the RFC 1321 test vector. -/
theorem md5Hex_abc : md5Hex "abc" = "900150983cd24fb0d6963f7d28e17f72" := by
  decide

/-! ## Helper lemmas about the object primitives -/

theorem objGet_objSet_self {α : Type} (o : List (String × α)) (k : String)
    (v : α) : objGet (objSet o k v) k = some v := by
  induction o with
  | nil => simp [objSet, objGet]
  | cons kv rest ih =>
    by_cases h : kv.1 = k
    · simp [objSet, objGet, h]
    · simp [objSet, objGet, h, ih]

theorem objGet_objDelete {α : Type} (o : List (String × α)) (kd k : String) :
    objGet (objDelete o kd) k =
      if k = kd then none else objGet o k := by
  induction o with
  | nil => simp [objDelete, objGet]
  | cons kv rest ih =>
    obtain ⟨k', v⟩ := kv
    by_cases hd : k' = kd
    · by_cases hk : k = kd
      · subst hk
        simp [objDelete, objGet, hd, ih]
      · have hne : k' ≠ k := by
          rw [hd]
          exact fun h => hk h.symm
        have hne' : kd ≠ k := fun h => hk h.symm
        simp [objDelete, objGet, hd, hk, hne, hne', ih]
    · by_cases hk : k' = k
      · subst hk
        simp [objDelete, objGet, hd]
      · simp [objDelete, objGet, hd, hk, ih]

/-! ## C6 -/

/-- C6: for every cache, key and query string, `cacheRemoveKeysWithPrefix p`
removes exactly the entries whose key starts with `p`: a later lookup returns
`none` for keys starting with `p` and the previous binding for all others. -/
theorem C6_invalidate_removes_exactly_matching_keys
    (cache : List (String × JState)) (p k : String) :
    objGet ( cacheRemoveKeysWithPrefix cache p) k =
      if strStartsWith k p then none else objGet cache k := by
  induction cache with
  | nil => simp [cacheRemoveKeysWithPrefix, objGet]
  | cons kv rest ih =>
    obtain ⟨k', v⟩ := kv
    by_cases hs : strStartsWith k' p
    · by_cases hk : k' = k
      · subst hk
        simp [cacheRemoveKeysWithPrefix, objGet, hs, ih]
      · simp [cacheRemoveKeysWithPrefix, objGet, hs, hk, ih]
    · by_cases hk : k' = k
      · subst hk
        simp [cacheRemoveKeysWithPrefix, objGet, hs, ih]
      · simp [cacheRemoveKeysWithPrefix, objGet, hs, hk, ih]

/-- Witness for C6 at a concrete cache. -/
theorem C6_invalidate_removes_exactly_matching_keys_witness :
    objGet
        ( cacheRemoveKeysWithPrefix
          [("actor1~f.feedback.a", [("value", JVal.jbool true)]),
           ("actor2~f.feedback.b", [("value", JVal.jbool false)])]
          "actor1~") "actor1~f.feedback.a" = none ∧
    objGet
        ( cacheRemoveKeysWithPrefix
          [("actor1~f.feedback.a", [("value", JVal.jbool true)]),
           ("actor2~f.feedback.b", [("value", JVal.jbool false)])]
          "actor1~") "actor2~f.feedback.b" =
      some [("value", JVal.jbool false)] := by
  constructor
  · rw [C6_invalidate_removes_exactly_matching_keys]
    decide
  · rw [C6_invalidate_removes_exactly_matching_keys]
    decide

/-! ## C7 -/

/-- C7: `store` then `get` with the identical `(actorId, feedbackId, options)`
returns exactly the stored state, and on the initial (empty) cache `get`
returns `undefined` for every triple. -/
theorem C7_store_get_roundtrip (cache : List (String × JState))
    (a f : String) (o st : JState) :
    cacheGet (cacheStore cache a f o st) a f o = some st ∧
    cacheGet ([] : List (String × JState)) a f o = none := by
  constructor
  · simp [cacheGet, cacheStore, objGet_objSet_self]
  · simp [cacheGet, objGet]

/-! ## C8 -/

/-- C8: the resolver is the identity on an already-resolved state: if none of
`overlayQueryKey`, `pngQueryKey`, `overlayImageName`, `imageName` is present,
`_handleFeedbackState` returns its input unchanged. -/
theorem C8_resolver_idempotent_on_resolved (env : Env) (st : JState)
    (h1 : objGet st "overlayQueryKey" = none)
    (h2 : objGet st "pngQueryKey" = none)
    (h3 : objGet st "overlayImageName" = none)
    (h4 : objGet st "imageName" = none) :
    handleFeedbackState env st = st := by
  simp [handleFeedbackState, h1, h2, h3, h4, jTruthyOpt]

/-- Witness for C8 at a concrete resolved state. -/
theorem C8_resolver_idempotent_on_resolved_witness :
    handleFeedbackState envNull
        [("value", JVal.jbool true), ("png64", JVal.jstr "AAAA")] =
      [("value", JVal.jbool true), ("png64", JVal.jstr "AAAA")] :=
  C8_resolver_idempotent_on_resolved envNull _ (by decide) (by decide)
    (by decide) (by decide)

/-! ## C9 -/

/-- C9 counterexample: a transport `error` received while no reconnection
timer is armed leaves the watchdog unarmed — the `error` handler never arms
it; only the `close` handler does. -/
theorem C9_error_does_not_arm_watchdog :
    (ConnState.connectionWatchdog
        ⟨none, "Ok", false, "127.0.0.1", "9023"⟩ = none) ∧
    (socketStep .onError
        ⟨none, "Ok", false, "127.0.0.1", "9023"⟩).connectionWatchdog = none := by
  constructor
  · rfl
  · rfl

/-- C9 amended: only a `close` event arms the 5-second reconnection timer
(when none is armed; an armed one is left as is); an `error` event never
changes the watchdog; an `open` event disarms it. -/
theorem C9_watchdog_armed_only_on_close (s : ConnState) :
    (s.connectionWatchdog = none →
      (socketStep .onClose s).connectionWatchdog = some 5000) ∧
    (s.connectionWatchdog ≠ none →
      (socketStep .onClose s).connectionWatchdog = s.connectionWatchdog) ∧
    (socketStep .onError s).connectionWatchdog = s.connectionWatchdog ∧
    (socketStep .onOpen s).connectionWatchdog = none := by
  refine ⟨fun h => ?_, fun h => ?_, rfl, rfl⟩
  · simp [socketStep, h]
  · simp [socketStep, h]

/-- Witness for the amended C9 at a concrete disconnect. -/
theorem C9_watchdog_armed_only_on_close_witness :
    (socketStep .onClose
        ⟨none, "Ok", false, "127.0.0.1", "9023"⟩).connectionWatchdog =
      some 5000 :=
  (C9_watchdog_armed_only_on_close ⟨none, "Ok", false, "127.0.0.1", "9023"⟩).1
    rfl

/-! ## C3 -/

/-- C3: with `pngQueryKey = "L1"` whose play state resolves to `"running"`
and a `png_running` variant present, the resolver returns the empty state:
the `png_running` value is lost (the source self-assigns
`state.png_running = state.png_running` instead of `state.png = ...` as the
paused branch does) and no raw-png field carries it. -/
theorem C3_png_running_value_lost :
    objGet envC3.playStates "L1" = some [("playState", jstr "running")] ∧
    handleFeedbackState envC3
        [("pngQueryKey", jstr "L1"), ("png_running", jstr "RUNPNG")] = [] := by
  constructor
  · decide
  · decide

/-! ## C1 -/

/-- C1 counterexample: two structurally equal non-empty options mappings
(same key/value pairs, swapped order) derive different FeedbackKeys, because
`JSON.stringify` serializes properties in insertion order and the MD5
fingerprints of the two serializations differ. -/
theorem C1_order_dependent_keys :
    List.Perm [("a", jnum 1), ("b", jnum 2)] [("b", jnum 2), ("a", jnum 1)] ∧
    makeCacheKeyUsingOptions "actor~newblue.automation.js.feedback.x.y"
        [("a", jnum 1), ("b", jnum 2)] ≠
      makeCacheKeyUsingOptions "actor~newblue.automation.js.feedback.x.y"
        [("b", jnum 2), ("a", jnum 1)] := by
  constructor
  · exact List.Perm.swap ("b", jnum 2) ("a", jnum 1) []
  · decide

/-- C1 amended: for non-empty options mappings, equal serializations (in
particular, identical mappings in identical key order) give equal keys, and
mappings whose serializations have different MD5 fingerprints — as any two
differing in an option value do, barring a fingerprint collision — give
different keys. -/
theorem C1_key_determined_by_serialization (key : String) (o1 o2 : JState)
    (h1 : o1 ≠ []) (h2 : o2 ≠ []) :
    (jsonStringifyObj o1 = jsonStringifyObj o2 →
      makeCacheKeyUsingOptions key o1 = makeCacheKeyUsingOptions key o2) ∧
    (md5Hex (jsonStringifyObj o1) ≠ md5Hex (jsonStringifyObj o2) →
      makeCacheKeyUsingOptions key o1 ≠ makeCacheKeyUsingOptions key o2) := by
  have l1 : o1.length ≠ 0 := by simpa using h1
  have l2 : o2.length ≠ 0 := by simpa using h2
  constructor
  · intro h
    simp only [makeCacheKeyUsingOptions, if_pos l1, if_pos l2, h]
  · intro hmd heq
    simp only [makeCacheKeyUsingOptions, if_pos l1, if_pos l2] at heq
    apply hmd
    have hd := congrArg String.data heq
    simp only [String.data_append] at hd
    exact String.ext (List.append_cancel_left hd)

/-- Witness for the amended C1: a one-key mapping whose value changes from
`1` to `2` has a different MD5 fingerprint, hence a different key. -/
theorem C1_key_determined_by_serialization_witness :
    makeCacheKeyUsingOptions "A~f.feedback.x" [("a", jnum 1)] ≠
      makeCacheKeyUsingOptions "A~f.feedback.x" [("a", jnum 2)] :=
  (C1_key_determined_by_serialization "A~f.feedback.x" [("a", jnum 1)]
      [("a", jnum 2)] (by decide) (by decide)).2 (by decide)

/-! ## Lemmas about the rebuild loop -/

theorem processOneMiss_pending (env : Env) (m : Miss) (s : FbState) :
    (processOneMiss env m s).pendingFeedbackChanges =
      objDelete s.pendingFeedbackChanges m.id := by
  unfold processOneMiss
  by_cases hv : validMissId m.id
  · simp only [if_pos hv]
    cases hq : queryFeedbackDetails env (splitAF m.id).1
        ((splitAF m.id).2.getD "") m.options with
    | some reply => simp [hq, FbState.store]
    | none => simp [hq]
  · simp [if_neg hv]

theorem processOneMiss_ghost (env : Env) (m : Miss) (s : FbState) :
    (processOneMiss env m s).checkFeedbacksCount = s.checkFeedbacksCount ∧
    (processOneMiss env m s).missPushLog = s.missPushLog ∧
    (processOneMiss env m s).cacheMisses = s.cacheMisses ∧
    (processOneMiss env m s).cacheBuilderArmed = s.cacheBuilderArmed ∧
    ∃ t, (processOneMiss env m s).storeLog = s.storeLog ++ t := by
  unfold processOneMiss
  by_cases hv : validMissId m.id
  · simp only [if_pos hv]
    cases hq : queryFeedbackDetails env (splitAF m.id).1
        ((splitAF m.id).2.getD "") m.options with
    | some reply =>
      refine ⟨by simp [hq, FbState.store], by simp [hq, FbState.store],
        by simp [hq, FbState.store], by simp [hq, FbState.store],
        ⟨[(makeCacheKeyUsingOptions
            ((splitAF m.id).1 ++ "~" ++ (splitAF m.id).2.getD "") m.options,
          reply)], by simp [hq, FbState.store]⟩⟩
    | none => exact ⟨by simp [hq], by simp [hq], by simp [hq], by simp [hq],
        ⟨[], by simp [hq]⟩⟩
  · exact ⟨by simp [if_neg hv], by simp [if_neg hv], by simp [if_neg hv],
      by simp [if_neg hv], ⟨[], by simp [if_neg hv]⟩⟩

theorem processMisses_ghost (env : Env) (l : List Miss) (s : FbState) :
    (processMisses env l s).1.checkFeedbacksCount = s.checkFeedbacksCount ∧
    (processMisses env l s).1.missPushLog = s.missPushLog ∧
    (processMisses env l s).1.cacheMisses = s.cacheMisses ∧
    (processMisses env l s).1.cacheBuilderArmed = s.cacheBuilderArmed ∧
    ∃ t, (processMisses env l s).1.storeLog = s.storeLog ++ t := by
  induction l generalizing s with
  | nil => exact ⟨rfl, rfl, rfl, rfl, ⟨[], by simp [processMisses]⟩⟩
  | cons m rest ih =>
    obtain ⟨hc, hm, hcm, hb, t, hs⟩ := processOneMiss_ghost env m s
    obtain ⟨ihc, ihm, ihcm, ihb, t2, ihs⟩ := ih (processOneMiss env m s)
    simp only [processMisses]
    exact ⟨by rw [ihc, hc], by rw [ihm, hm], by rw [ihcm, hcm],
      by rw [ihb, hb], ⟨t ++ t2, by rw [ihs, hs, List.append_assoc]⟩⟩

theorem processMisses_pending (env : Env) (l : List Miss) (s : FbState)
    (k : String) :
    objGet ((processMisses env l s).1).pendingFeedbackChanges k =
      if k ∈ l.map Miss.id then none
      else objGet s.pendingFeedbackChanges k := by
  induction l generalizing s with
  | nil => simp [processMisses]
  | cons m rest ih =>
    simp only [processMisses]
    rw [ih, processOneMiss_pending, objGet_objDelete]
    by_cases h1 : k ∈ rest.map Miss.id
    · simp [h1]
    · by_cases h2 : k = m.id
      · simp [h1, h2]
      · simp [h1, h2]

theorem processMisses_count (env : Env) (l : List Miss) (s : FbState) :
    (processMisses env l s).2 =
      (l.filter fun m => validMissId m.id).length := by
  induction l generalizing s with
  | nil => simp [processMisses]
  | cons m rest ih =>
    simp only [processMisses]
    rw [ih]
    by_cases hv : validMissId m.id
    · simp [hv, List.filter_cons]
    · simp [hv, List.filter_cons]

theorem processMisses_store_mem (env : Env) (l : List Miss) (s : FbState)
    (m : Miss) (hm : m ∈ l) (hv : validMissId m.id) (r : JState)
    (hq : queryFeedbackDetails env (splitAF m.id).1 ((splitAF m.id).2.getD "")
        m.options = some r) :
    (makeCacheKeyUsingOptions
        ((splitAF m.id).1 ++ "~" ++ (splitAF m.id).2.getD "") m.options, r) ∈
      (processMisses env l s).1.storeLog := by
  induction l generalizing s with
  | nil => cases hm
  | cons m0 rest ih =>
    rcases List.mem_cons.mp hm with h | h
    · subst h
      have hst : (makeCacheKeyUsingOptions
          ((splitAF m.id).1 ++ "~" ++ (splitAF m.id).2.getD "") m.options, r) ∈
            (processOneMiss env m s).storeLog := by
        unfold processOneMiss
        simp [hv, hq, FbState.store]
      obtain ⟨-, -, -, -, t2, hs2⟩ :=
        processMisses_ghost env rest (processOneMiss env m s)
      simp only [processMisses]
      rw [hs2]
      exact List.mem_append_left _ hst
    · simp only [processMisses]
      exact ih (processOneMiss env m0 s) h

theorem rebuild_missPushLog (env : Env) (s : FbState) :
    (rebuildFeedbackCache env s).missPushLog = s.missPushLog := by
  have h := (processMisses_ghost env ((stopCacheChecker s).cacheMisses.reverse)
      { stopCacheChecker s with cacheMisses := [] }).2.1
  simp only [rebuildFeedbackCache]
  split
  · simpa [stopCacheChecker] using h
  · simpa [stopCacheChecker] using h

theorem startCacheChecker_missPushLog (env : Env) (s : FbState) :
    (startCacheChecker env s).missPushLog = s.missPushLog := by
  simp only [startCacheChecker]
  split
  · simp [rebuild_missPushLog, stopCacheChecker]
  · simp [stopCacheChecker]

theorem startCacheChecker_armed_of_misses (env : Env) (s : FbState)
    (h : s.cacheMisses ≠ []) :
    (startCacheChecker env s).cacheBuilderArmed = true := by
  simp only [startCacheChecker]
  rw [if_pos]
  · exact List.length_pos.mpr (by simpa [stopCacheChecker] using h)

/-! ## C2 -/

/-- C2 counterexample: a rebuild pass whose RPC refill fails still clears the
staleness mark of the popped miss — the mark is deleted before the query is
even issued, and the cache stays empty (nothing was refilled). -/
theorem C2_mark_cleared_despite_failed_refill :
    envNull.rpcFeedbackState "A" "x.feedback.y" [] = none ∧
    (rebuildFeedbackCache envNull s2c).localFeedbackCache = [] ∧
    (rebuildFeedbackCache envNull s2c).pendingFeedbackChanges = [] := by
  refine ⟨rfl, ?_, ?_⟩
  · decide
  · decide

/-- C2 amended: the staleness mark of a key is cleared as soon as a miss for
it is popped during a rebuild pass, before and regardless of the refill
outcome (in any environment, including one whose every refill fails); marks
whose key has no queued miss are untouched. -/
theorem C2_marks_cleared_for_every_popped_miss (env : Env) (s : FbState)
    (k : String) :
    objGet (rebuildFeedbackCache env s).pendingFeedbackChanges k =
      if k ∈ s.cacheMisses.map Miss.id then none
      else objGet s.pendingFeedbackChanges k := by
  have h := processMisses_pending env ((stopCacheChecker s).cacheMisses.reverse)
      { stopCacheChecker s with cacheMisses := [] } k
  simp only [rebuildFeedbackCache]
  split
  · simpa [stopCacheChecker, List.map_reverse, List.mem_reverse] using h
  · simpa [stopCacheChecker, List.map_reverse, List.mem_reverse] using h

/-! ## C4 -/

/-- C4: in a rebuild pass over a worklist containing at least one miss that
passes the feedback-id guard, (a) `checkFeedbacks` is requested exactly once
after the pass, and (b) every guard-passing miss whose refill succeeds gets
its resolved reply stored under its cache key — independently of any other
miss's refill failing. -/
theorem C4_failures_do_not_block_other_refills (env : Env) (s : FbState)
    (hvalid : ∃ m ∈ s.cacheMisses, validMissId m.id) :
    (rebuildFeedbackCache env s).checkFeedbacksCount =
      s.checkFeedbacksCount + 1 ∧
    ∀ m ∈ s.cacheMisses, validMissId m.id →
      ∀ r, queryFeedbackDetails env (splitAF m.id).1 ((splitAF m.id).2.getD "")
          m.options = some r →
        (makeCacheKeyUsingOptions
            ((splitAF m.id).1 ++ "~" ++ (splitAF m.id).2.getD "")
            m.options, r) ∈ (rebuildFeedbackCache env s).storeLog := by
  obtain ⟨m0, hm0, hv0⟩ := hvalid
  have hpos : 0 < (processMisses env ((stopCacheChecker s).cacheMisses.reverse)
      { stopCacheChecker s with cacheMisses := [] }).2 := by
    rw [processMisses_count]
    apply List.length_pos.mpr
    intro he
    have : m0 ∈ (stopCacheChecker s).cacheMisses.reverse.filter
        fun m => validMissId m.id := by
      simp [stopCacheChecker, List.mem_filter, List.mem_reverse, hm0, hv0]
    rw [he] at this
    cases this
  constructor
  · have hc := (processMisses_ghost env
        ((stopCacheChecker s).cacheMisses.reverse)
        { stopCacheChecker s with cacheMisses := [] }).1
    simp only [rebuildFeedbackCache]
    rw [if_pos hpos]
    simpa [stopCacheChecker] using hc
  · intro m hm hv r hq
    have hmem := processMisses_store_mem env
      ((stopCacheChecker s).cacheMisses.reverse)
      { stopCacheChecker s with cacheMisses := [] } m
      (by simpa [stopCacheChecker, List.mem_reverse] using hm) hv r hq
    simp only [rebuildFeedbackCache]
    rw [if_pos hpos]
    simpa using hmem

/-- Witness for C4: with one failing (actor `B`) and one succeeding (actor
`A`) miss queued, the pass requests `checkFeedbacks` once and still stores
the succeeding refill. -/
theorem C4_failures_do_not_block_other_refills_witness :
    (rebuildFeedbackCache envC4 s4).checkFeedbacksCount =
      s4.checkFeedbacksCount + 1 ∧
    ("A~x.feedback.y", [("value", jbool true)]) ∈
      (rebuildFeedbackCache envC4 s4).storeLog := by
  have h := C4_failures_do_not_block_other_refills envC4 s4
    ⟨⟨"A~x.feedback.y", []⟩, by decide, by decide⟩
  refine ⟨h.1, ?_⟩
  have h2 := h.2 ⟨"A~x.feedback.y", []⟩ (by decide) (by decide)
    [("value", jbool true)] (by decide)
  simpa using h2

/-! ## C5 -/

/-- C5: a boolean-typed `handleFeedback` call for
`A~newblue.automation.js.feedback.x.y` with empty options and no cache entry
under the derived key returns `false` and pushes exactly one miss, carrying
that composite id and those options, onto the worklist. -/
theorem C5_uncached_boolean_feedback (env : Env) (s : FbState)
    (h : cacheGetFromFullId s.localFeedbackCache
        "A~newblue.automation.js.feedback.x.y" [] = none) :
    (handleFeedback env
        ⟨"A~newblue.automation.js.feedback.x.y", [], "boolean"⟩ s).1 =
      JsRet.bval false ∧
    (handleFeedback env
        ⟨"A~newblue.automation.js.feedback.x.y", [], "boolean"⟩ s).2.missPushLog =
      s.missPushLog ++ [⟨"A~newblue.automation.js.feedback.x.y", []⟩] := by
  unfold handleFeedback
  constructor
  · simp [h, jTruthyOpt]
  · rw [startCacheChecker_missPushLog]
    simp [h, FbState.pushMiss]

/-- Witness for C5 on the fresh instance state. -/
theorem C5_uncached_boolean_feedback_witness :
    (handleFeedback envNull
        ⟨"A~newblue.automation.js.feedback.x.y", [], "boolean"⟩ fbState0).1 =
      JsRet.bval false ∧
    (handleFeedback envNull
        ⟨"A~newblue.automation.js.feedback.x.y", [], "boolean"⟩
        fbState0).2.missPushLog =
      fbState0.missPushLog ++ [⟨"A~newblue.automation.js.feedback.x.y", []⟩] :=
  C5_uncached_boolean_feedback envNull fbState0 (by decide)

/-! ## C10 -/

/-- C10: a `handleFeedback` call whose derived key has a cache entry (without
an `imageName` field, for a non-boolean feedback type) that is marked stale
returns the cached value unchanged, yet pushes exactly one miss for the
composite id onto the worklist and leaves the cache-checker timer armed, so
the stale entry is re-fetched by the next rebuild pass. -/
theorem C10_stale_hit_returns_and_refetches (env : Env) (ev : FbEvent)
    (s : FbState) (st : JState)
    (hcache : cacheGetFromFullId s.localFeedbackCache ev.feedbackId
        ev.options = some st)
    (himg : hasProp st "imageName" = false)
    (hstale : strTruthyOpt
        (objGet s.pendingFeedbackChanges ev.feedbackId) = true)
    (htype : ev.type ≠ "boolean") :
    (handleFeedback env ev s).1 = JsRet.sval (some st) ∧
    (handleFeedback env ev s).2.missPushLog =
      s.missPushLog ++ [⟨ev.feedbackId, ev.options⟩] ∧
    (handleFeedback env ev s).2.cacheBuilderArmed = true := by
  unfold handleFeedback
  refine ⟨?_, ?_, ?_⟩
  · simp [hcache, himg, htype]
  · rw [startCacheChecker_missPushLog]
    simp [hcache, hstale, FbState.pushMiss]
  · simp only [hcache]
    apply startCacheChecker_armed_of_misses
    simp [hstale, FbState.pushMiss]

/-- Witness for C10 at a concrete stale cache hit. -/
theorem C10_stale_hit_returns_and_refetches_witness :
    (handleFeedback envNull ⟨"A~x.feedback.y", [], "advanced"⟩ s10).1 =
      JsRet.sval (some [("value", jbool true)]) ∧
    (handleFeedback envNull
        ⟨"A~x.feedback.y", [], "advanced"⟩ s10).2.missPushLog =
      s10.missPushLog ++ [⟨"A~x.feedback.y", []⟩] ∧
    (handleFeedback envNull
        ⟨"A~x.feedback.y", [], "advanced"⟩ s10).2.cacheBuilderArmed = true :=
  C10_stale_hit_returns_and_refetches envNull ⟨"A~x.feedback.y", [], "advanced"⟩
    s10 [("value", jbool true)] (by decide) (by decide) (by decide) (by decide)

end Captivate
